import Mathlib

/-!
Verification of the muzzle ballistic derivation engine against its design
specification.  The engine (src/src/lib.rs) takes a unit system and three
optional textual inputs (mass, speed, energy), parses the present ones as
numbers, and derives the missing parameter from the classical
kinetic-energy relationship.

Numeric values are modelled over the real numbers: the Rust code computes
with `f64`, whose idealised (rounding-free) semantics is real arithmetic,
and `powf(0.5)` is modelled by `Real.sqrt`.  The parser called by
`get_float`, Rust's `str::parse::<f64>` (an external standard-library
function), accepts `Sign? ('inf' | 'infinity' | 'nan' | Number)`
case-insensitively.  Two functions model it: `rustFloatAccepts` models its
full acceptance set, and `parseFloat` gives exact rational values on the
finite `Sign? Number` fragment (the special literals denote ±infinity and
NaN, values outside the real-valued idealisation, so `run` is modelled
exactly on inputs whose provided fields are either rejected by the grammar
or finite decimal literals, and theorems constrain only such inputs).
-/

namespace Muzzle

/-- Numeric value of a list of decimal digit characters. -/
def digitsToNat (cs : List Char) : Nat :=
  cs.foldl (fun a c => a * 10 + (c.toNat - 48)) 0

/-- Split a character list into its leading run of decimal digits and the rest. -/
def takeDigits : List Char → List Char × List Char
  | [] => ([], [])
  | c :: cs =>
    if c.isDigit then
      let p := takeDigits cs
      (c :: p.1, p.2)
    else ([], c :: cs)

/-- Consume an optional leading sign; returns `true` when the sign is `-`. -/
def takeSign : List Char → Bool × List Char
  | '+' :: cs => (false, cs)
  | '-' :: cs => (true, cs)
  | cs => (false, cs)

/-- Split at the first exponent marker `e`/`E`, if any. -/
def splitAtExp : List Char → List Char × Option (List Char)
  | [] => ([], none)
  | c :: cs =>
    if c = 'e' ∨ c = 'E' then ([], some cs)
    else
      let p := splitAtExp cs
      (c :: p.1, p.2)

/-- Parse the exponent part: optional sign followed by a nonempty digit run. -/
def readExpPart (cs : List Char) : Option Int :=
  let sp := takeSign cs
  let dp := takeDigits sp.2
  if dp.2.isEmpty ∧ ¬ dp.1.isEmpty then
    some (if sp.1 then -(digitsToNat dp.1 : Int) else (digitsToNat dp.1 : Int))
  else none

/-- Parse the mantissa: `Digits ['.' Digits?] | '.' Digits`, exact value in ℚ. -/
def readMantissa (cs : List Char) : Option ℚ :=
  let ip := takeDigits cs
  match ip.2 with
  | [] => if ip.1.isEmpty then none else some (digitsToNat ip.1 : ℚ)
  | '.' :: r2 =>
    let fp := takeDigits r2
    if fp.2.isEmpty ∧ (¬ ip.1.isEmpty ∨ ¬ fp.1.isEmpty) then
      some ((digitsToNat ip.1 : ℚ) + (digitsToNat fp.1 : ℚ) / 10 ^ fp.1.length)
    else none
  | _ => none

/-- Value function of Rust's `str::parse::<f64>` on its finite fragment
`Sign? Number`: optional sign, then `Digits ['.' Digits?] | '.' Digits`,
then an optional exponent `e`/`E` with optional sign and digits.  Exact
rational semantics; the special literals (`inf`/`infinity`/`nan`), whose
values are not finite numbers, are covered by `rustFloatAccepts`. -/
def parseFloat (s : String) : Option ℚ :=
  let sp := takeSign s.toList
  let me := splitAtExp sp.2
  match readMantissa me.1, (match me.2 with | none => some 0 | some e => readExpPart e) with
  | some m, some ex => some ((if sp.1 then -m else m) * (10 : ℚ) ^ ex)
  | _, _ => none

/-- Model of the full acceptance set of Rust's `str::parse::<f64>`:
`Sign? ('inf' | 'infinity' | 'nan' | Number)`, with the three special words
matched case-insensitively.  A string it rejects is exactly one on which the
program's `get_float` fails with the parse error. -/
def rustFloatAccepts (s : String) : Bool :=
  let rest := ((takeSign s.toList).2.map Char.toLower)
  rest == "inf".toList || rest == "infinity".toList || rest == "nan".toList ||
    (parseFloat s).isSome

/-- Measurement system to perform calculations in (src: `enum Units`). -/
inductive Units : Type where
  | METRIC : Units
  | IMPERIAL : Units
  deriving DecidableEq

/-- Configuration passed to `run` (src: `struct Config`). -/
structure Config : Type where
  units : Units
  mass : Option String
  speed : Option String
  energy : Option String

/-- Output of `run`, all parameters resolved (src: `struct Params`). -/
structure Params : Type where
  units : Units
  mass : ℝ
  speed : ℝ
  energy : ℝ
  bogus : Bool

/-- src: `const GEE_FPS: f64 = 32.174;` -/
noncomputable def GEE_FPS : ℝ := 32.174

/-- src: `const GRAMS_IN_KILO: f64 = 1000f64;` -/
noncomputable def GRAMS_IN_KILO : ℝ := 1000

/-- src: `const GRAINS_IN_POUND: f64 = 7000f64;` -/
noncomputable def GRAINS_IN_POUND : ℝ := 7000

/-- src: `derive_mass` — mass from speed and energy in the set units. -/
noncomputable def derive_mass (speed energy : ℝ) (units : Units) : ℝ :=
  match units with
  | .METRIC => ((2 * energy) / speed ^ 2) * GRAMS_IN_KILO
  | .IMPERIAL => ((2 * GEE_FPS * energy) / speed ^ 2) * GRAINS_IN_POUND

/-- src: `derive_speed` — speed from mass and energy in the set units;
`powf(0.5)` is the square root. -/
noncomputable def derive_speed (mass energy : ℝ) (units : Units) : ℝ :=
  let speed_squared :=
    match units with
    | .METRIC => (2 * energy) / (mass / GRAMS_IN_KILO)
    | .IMPERIAL => (2 * GEE_FPS * energy) / (mass / GRAINS_IN_POUND)
  Real.sqrt speed_squared

/-- src: `derive_energy` — energy from mass and speed in the set units. -/
noncomputable def derive_energy (mass speed : ℝ) (units : Units) : ℝ :=
  match units with
  | .METRIC => ((mass / GRAMS_IN_KILO) * speed ^ 2) / 2
  | .IMPERIAL => ((mass / GRAINS_IN_POUND) * speed ^ 2) / (2 * GEE_FPS)

/-- src: the message produced by `get_float` on a parse failure
(`format!("Failed to parse `{}` as input parameter!", st)`). -/
def parseErrorMsg (st : String) : String :=
  "Failed to parse `" ++ st ++ "` as input parameter!"

/-- src: the error message of `run` when fewer than two parameters are given. -/
def insufficientMsg : String :=
  "Incorrect parameters set. At least two out of three parameters must be given to derive the third.\nPlease check input."

/-- src: `get_float` — tries to parse an `f64` out of a given option string. -/
noncomputable def get_float (param : Option String) : Except String (Option ℝ) :=
  match param with
  | some st =>
    match parseFloat st with
    | some n => .ok (some (n : ℝ))
    | none => .error (parseErrorMsg st)
  | none => .ok none

/-- src: `run` — performs calculations based on the given input config.
The three `get_float(..)?` calls short-circuit left to right, exactly as
Rust's `?` operator does. -/
noncomputable def run (config : Config) : Except String Params :=
  match get_float config.mass with
  | .error e => .error e
  | .ok mOpt =>
    match get_float config.speed with
    | .error e => .error e
    | .ok sOpt =>
      match get_float config.energy with
      | .error e => .error e
      | .ok eOpt =>
        match mOpt, sOpt, eOpt with
        | some m, some s, none =>
          .ok ⟨config.units, m, s, derive_energy m s config.units, false⟩
        | some m, none, some e =>
          .ok ⟨config.units, m, derive_speed m e config.units, e, false⟩
        | none, some s, some e =>
          .ok ⟨config.units, derive_mass s e config.units, s, e, false⟩
        | some m, some s, some e =>
          .ok ⟨config.units, m, s, e, true⟩
        | _, _, _ => .error insufficientMsg

/-- Spec-side gravitational correction factor: g = 1 (metric), 32.174 (imperial). -/
noncomputable def specGee : Units → ℝ
  | .METRIC => 1
  | .IMPERIAL => 32.174

/-- Spec-side base-unit mass divisor: 1000 (metric, grams per kilogram),
7000 (imperial, grains per pound). -/
noncomputable def specMassFactor : Units → ℝ
  | .METRIC => 1000
  | .IMPERIAL => 7000

/-- Spec formula: energy = (mass_base × speed²) / (2 × g). -/
noncomputable def specEnergy (u : Units) (mass speed : ℝ) : ℝ :=
  ((mass / specMassFactor u) * speed ^ 2) / (2 * specGee u)

/-- Spec formula: speed = sqrt((2 × g × energy) / mass_base). -/
noncomputable def specSpeed (u : Units) (mass energy : ℝ) : ℝ :=
  Real.sqrt ((2 * specGee u * energy) / (mass / specMassFactor u))

/-- Spec formula: mass = ((2 × g × energy) / speed²) × (1000 | 7000). -/
noncomputable def specMass (u : Units) (speed energy : ℝ) : ℝ :=
  ((2 * specGee u * energy) / speed ^ 2) * specMassFactor u

/-! ### Evaluation lemmas for the parser on concrete literals -/

lemma parse_ten : parseFloat "10" = some 10 := by
  simp +decide [parseFloat, takeSign, splitAtExp, readMantissa, takeDigits, digitsToNat, readExpPart]

lemma parse_800 : parseFloat "800" = some 800 := by
  simp +decide [parseFloat, takeSign, splitAtExp, readMantissa, takeDigits, digitsToNat, readExpPart]

lemma parse_150 : parseFloat "150" = some 150 := by
  simp +decide [parseFloat, takeSign, splitAtExp, readMantissa, takeDigits, digitsToNat, readExpPart]

lemma parse_2700 : parseFloat "2700" = some 2700 := by
  simp +decide [parseFloat, takeSign, splitAtExp, readMantissa, takeDigits, digitsToNat, readExpPart]

lemma parse_one : parseFloat "1" = some 1 := by
  simp +decide [parseFloat, takeSign, splitAtExp, readMantissa, takeDigits, digitsToNat, readExpPart]

lemma parse_two : parseFloat "2" = some 2 := by
  simp +decide [parseFloat, takeSign, splitAtExp, readMantissa, takeDigits, digitsToNat, readExpPart]

lemma parse_zero : parseFloat "0" = some 0 := by
  simp +decide [parseFloat, takeSign, splitAtExp, readMantissa, takeDigits, digitsToNat, readExpPart]

lemma parse_neg_five : parseFloat "-5" = some (-5) := by
  simp +decide [parseFloat, takeSign, splitAtExp, readMantissa, takeDigits, digitsToNat, readExpPart]

lemma parse_999 : parseFloat "999" = some 999 := by
  simp +decide [parseFloat, takeSign, splitAtExp, readMantissa, takeDigits, digitsToNat, readExpPart]

lemma parse_abc : parseFloat "abc" = none := by
  simp +decide [parseFloat, takeSign, splitAtExp, readMantissa, takeDigits, digitsToNat, readExpPart]

/-! ### The acceptance model agrees with the value function -/

lemma accepts_of_parseFloat {s : String} {q : ℚ} (h : parseFloat s = some q) :
    rustFloatAccepts s = true := by
  simp [rustFloatAccepts, h]

lemma parseFloat_eq_none_of_rejected {s : String}
    (h : rustFloatAccepts s = false) : parseFloat s = none := by
  cases hp : parseFloat s with
  | none => rfl
  | some q => rw [accepts_of_parseFloat hp] at h; exact absurd h (by simp)

lemma accepts_inf : rustFloatAccepts "inf" = true := by decide

lemma accepts_infinity_upper : rustFloatAccepts "INFINITY" = true := by decide

lemma accepts_signed_nan : rustFloatAccepts "-NaN" = true := by decide

lemma rejects_abc : rustFloatAccepts "abc" = false := by decide

/-! ### Evaluation lemmas for `get_float` and `run` -/

lemma get_float_none : get_float none = .ok none := rfl

lemma get_float_parsed {st : String} {q : ℚ} (h : parseFloat st = some q) :
    get_float (some st) = .ok (some (q : ℝ)) := by
  simp [get_float, h]

lemma get_float_bad {st : String} (h : parseFloat st = none) :
    get_float (some st) = .error (parseErrorMsg st) := by
  simp [get_float, h]

lemma run_mass_speed {u : Units} {sm ss : String} {m s : ℚ}
    (hm : parseFloat sm = some m) (hs : parseFloat ss = some s) :
    run ⟨u, some sm, some ss, none⟩ =
      .ok ⟨u, (m : ℝ), (s : ℝ), derive_energy (m : ℝ) (s : ℝ) u, false⟩ := by
  simp [run, get_float_parsed hm, get_float_parsed hs, get_float_none]

lemma run_mass_energy {u : Units} {sm se : String} {m e : ℚ}
    (hm : parseFloat sm = some m) (he : parseFloat se = some e) :
    run ⟨u, some sm, none, some se⟩ =
      .ok ⟨u, (m : ℝ), derive_speed (m : ℝ) (e : ℝ) u, (e : ℝ), false⟩ := by
  simp [run, get_float_parsed hm, get_float_parsed he, get_float_none]

lemma run_speed_energy {u : Units} {ss se : String} {s e : ℚ}
    (hs : parseFloat ss = some s) (he : parseFloat se = some e) :
    run ⟨u, none, some ss, some se⟩ =
      .ok ⟨u, derive_mass (s : ℝ) (e : ℝ) u, (s : ℝ), (e : ℝ), false⟩ := by
  simp [run, get_float_parsed hs, get_float_parsed he, get_float_none]

lemma run_all_three {u : Units} {sm ss se : String} {m s e : ℚ}
    (hm : parseFloat sm = some m) (hs : parseFloat ss = some s)
    (he : parseFloat se = some e) :
    run ⟨u, some sm, some ss, some se⟩ = .ok ⟨u, (m : ℝ), (s : ℝ), (e : ℝ), true⟩ := by
  simp [run, get_float_parsed hm, get_float_parsed hs, get_float_parsed he]

/-! ### The code formulas agree with the spec formulas -/

lemma derive_energy_eq_spec (u : Units) (m s : ℝ) :
    derive_energy m s u = specEnergy u m s := by
  cases u <;>
    simp [derive_energy, specEnergy, specGee, specMassFactor,
      GRAMS_IN_KILO, GRAINS_IN_POUND, GEE_FPS]

lemma derive_speed_eq_spec (u : Units) (m e : ℝ) :
    derive_speed m e u = specSpeed u m e := by
  cases u <;>
    simp [derive_speed, specSpeed, specGee, specMassFactor,
      GRAMS_IN_KILO, GRAINS_IN_POUND, GEE_FPS]

lemma derive_mass_eq_spec (u : Units) (s e : ℝ) :
    derive_mass s e u = specMass u s e := by
  cases u <;>
    simp [derive_mass, specMass, specGee, specMassFactor,
      GRAMS_IN_KILO, GRAINS_IN_POUND, GEE_FPS]

lemma specGee_pos (u : Units) : 0 < specGee u := by
  cases u <;> norm_num [specGee]

lemma specMassFactor_pos (u : Units) : 0 < specMassFactor u := by
  cases u <;> norm_num [specMassFactor]

lemma get_float_ok_none_iff {o : Option String} :
    get_float o = .ok none ↔ o = none := by
  cases o with
  | none => simp [get_float]
  | some st => cases h : parseFloat st <;> simp [get_float, h]

lemma get_float_some_inj {st : String} {q : ℚ} {x : ℝ}
    (h1 : get_float (some st) = .ok (some x)) (h2 : parseFloat st = some q) :
    x = (q : ℝ) := by
  rw [get_float_parsed h2] at h1
  exact (Option.some.injEq _ _ ▸ Except.ok.inj h1).symm

/-! ### Per-unit unfoldings of the three derivation functions -/

lemma derive_energy_metric (m s : ℝ) :
    derive_energy m s .METRIC = ((m / 1000) * s ^ 2) / 2 := by
  simp [derive_energy, GRAMS_IN_KILO]

lemma derive_energy_imperial (m s : ℝ) :
    derive_energy m s .IMPERIAL = ((m / 7000) * s ^ 2) / (2 * 32.174) := by
  simp [derive_energy, GRAINS_IN_POUND, GEE_FPS]

lemma derive_speed_metric (m e : ℝ) :
    derive_speed m e .METRIC = Real.sqrt ((2 * e) / (m / 1000)) := by
  simp [derive_speed, GRAMS_IN_KILO]

lemma derive_speed_imperial (m e : ℝ) :
    derive_speed m e .IMPERIAL = Real.sqrt ((2 * 32.174 * e) / (m / 7000)) := by
  simp [derive_speed, GRAINS_IN_POUND, GEE_FPS]

lemma derive_mass_metric (s e : ℝ) :
    derive_mass s e .METRIC = ((2 * e) / s ^ 2) * 1000 := by
  simp [derive_mass, GRAMS_IN_KILO]

lemma derive_mass_imperial (s e : ℝ) :
    derive_mass s e .IMPERIAL = ((2 * 32.174 * e) / s ^ 2) * 7000 := by
  simp [derive_mass, GRAINS_IN_POUND, GEE_FPS]

/-! ### The claims -/

/-- C1: for every unit system, whenever exactly two of the three parameters are
provided and parse, `run` returns `Ok` with `bogus = false` and the third
parameter given by the exact spec formulas (energy = mass_base·speed²/(2g),
speed = sqrt(2g·energy/mass_base), mass = (2g·energy/speed²)·1000|7000, with
g = 1 metric / 32.174 imperial and mass_base = mass/1000 metric / mass/7000
imperial). -/
theorem c1_two_inputs_derive_third (u : Units) (sa sb : String) (a b : ℚ)
    (ha : parseFloat sa = some a) (hb : parseFloat sb = some b) :
    run ⟨u, some sa, some sb, none⟩ =
      .ok ⟨u, (a : ℝ), (b : ℝ), specEnergy u (a : ℝ) (b : ℝ), false⟩ ∧
    run ⟨u, some sa, none, some sb⟩ =
      .ok ⟨u, (a : ℝ), specSpeed u (a : ℝ) (b : ℝ), (b : ℝ), false⟩ ∧
    run ⟨u, none, some sa, some sb⟩ =
      .ok ⟨u, specMass u (a : ℝ) (b : ℝ), (a : ℝ), (b : ℝ), false⟩ := by
  refine ⟨?_, ?_, ?_⟩
  · rw [run_mass_speed ha hb, derive_energy_eq_spec]
  · rw [run_mass_energy ha hb, derive_speed_eq_spec]
  · rw [run_speed_energy ha hb, derive_mass_eq_spec]

/-- Witness for C1 at a concrete input: metric, mass "10" and speed "800". -/
theorem c1_witness :
    parseFloat "10" = some 10 ∧ parseFloat "800" = some 800 ∧
    run ⟨Units.METRIC, some "10", some "800", none⟩ =
      .ok ⟨Units.METRIC, ((10 : ℚ) : ℝ), ((800 : ℚ) : ℝ),
        specEnergy Units.METRIC ((10 : ℚ) : ℝ) ((800 : ℚ) : ℝ), false⟩ :=
  ⟨parse_ten, parse_800,
    (c1_two_inputs_derive_third Units.METRIC "10" "800" 10 800 parse_ten parse_800).1⟩

/-- C3: when all three parameters are provided and parse, `run` returns `Ok`
with `bogus = true` and the three parsed values echoed unchanged, whether or
not they are physically consistent. -/
theorem c3_all_three_echoed_bogus (u : Units) (sa sb sc : String) (a b c : ℚ)
    (ha : parseFloat sa = some a) (hb : parseFloat sb = some b)
    (hc : parseFloat sc = some c) :
    run ⟨u, some sa, some sb, some sc⟩ = .ok ⟨u, (a : ℝ), (b : ℝ), (c : ℝ), true⟩ :=
  run_all_three ha hb hc

/-- Witness for C3 at a physically inconsistent concrete input:
mass 1 g and speed 1 m/s have kinetic energy 0.0005 J, not 999 J. -/
theorem c3_witness :
    parseFloat "1" = some 1 ∧ parseFloat "999" = some 999 ∧
    run ⟨Units.METRIC, some "1", some "1", some "999"⟩ =
      .ok ⟨Units.METRIC, ((1 : ℚ) : ℝ), ((1 : ℚ) : ℝ), ((999 : ℚ) : ℝ), true⟩ :=
  ⟨parse_one, parse_999,
    c3_all_three_echoed_bogus Units.METRIC "1" "1" "999" 1 1 999
      parse_one parse_one parse_999⟩

/-- C7: metric, mass "10" (grams) and speed "800" (m/s), energy absent:
`run` returns `Ok` with derived energy (10/1000 × 800²)/2 = 3200 joules
exactly (hence equal to 3200.000 to three decimal places). -/
theorem c7_metric_example :
    run ⟨Units.METRIC, some "10", some "800", none⟩ =
      .ok ⟨Units.METRIC, 10, 800, 3200, false⟩ := by
  rw [run_mass_speed parse_ten parse_800]
  norm_num [derive_energy_metric, Params.mk.injEq]

/-- C10: with exactly two parseable parameters provided, `run` returns `Ok`
whatever the numeric values are — zero and negative values included — and
never an error. -/
theorem c10_no_error_on_degenerate_values (u : Units) (sa sb : String)
    (a b : ℚ) (ha : parseFloat sa = some a) (hb : parseFloat sb = some b) :
    (∃ p, run ⟨u, some sa, some sb, none⟩ = .ok p) ∧
    (∃ p, run ⟨u, some sa, none, some sb⟩ = .ok p) ∧
    (∃ p, run ⟨u, none, some sa, some sb⟩ = .ok p) :=
  ⟨⟨_, run_mass_speed ha hb⟩, ⟨_, run_mass_energy ha hb⟩,
    ⟨_, run_speed_energy ha hb⟩⟩

/-- Witness for C10 at degenerate concrete inputs: first value "0", second
"-5"; in particular `run` succeeds when the mass derivation divides by a zero
speed and when the speed derivation takes the square root of a negative. -/
theorem c10_witness :
    parseFloat "0" = some 0 ∧ parseFloat "-5" = some (-5) ∧
    ((∃ p, run ⟨Units.METRIC, some "0", some "-5", none⟩ = .ok p) ∧
      (∃ p, run ⟨Units.METRIC, some "0", none, some "-5"⟩ = .ok p) ∧
      (∃ p, run ⟨Units.METRIC, none, some "0", some "-5"⟩ = .ok p)) :=
  ⟨parse_zero, parse_neg_five,
    c10_no_error_on_degenerate_values Units.METRIC "0" "-5" 0 (-5)
      parse_zero parse_neg_five⟩

/-- C2 counterexample: with exactly one parameter provided but unparseable
("abc" as mass), `run` fails with the parse error, not with the
insufficient-inputs error, refuting the claim that zero or one provided
parameter always yields the insufficient-inputs error. -/
theorem c2_counterexample :
    run ⟨Units.METRIC, some "abc", none, none⟩ = .error (parseErrorMsg "abc") ∧
    parseErrorMsg "abc" ≠ insufficientMsg := by
  constructor
  · simp [run, get_float_bad parse_abc]
  · decide

/-- C2 (amended): with zero provided parameters, or exactly one provided
parameter that parses successfully, `run` fails with the insufficient-inputs
error. -/
theorem c2_insufficient_inputs (u : Units) (st : String) (q : ℚ)
    (h : parseFloat st = some q) :
    run ⟨u, none, none, none⟩ = .error insufficientMsg ∧
    run ⟨u, some st, none, none⟩ = .error insufficientMsg ∧
    run ⟨u, none, some st, none⟩ = .error insufficientMsg ∧
    run ⟨u, none, none, some st⟩ = .error insufficientMsg := by
  refine ⟨?_, ?_, ?_, ?_⟩ <;>
    simp [run, get_float_none, get_float_parsed h]

/-- Witness for C2 (amended) at the concrete one-provided input "1". -/
theorem c2_witness :
    parseFloat "1" = some 1 ∧
    (run ⟨Units.METRIC, none, none, none⟩ = .error insufficientMsg ∧
      run ⟨Units.METRIC, some "1", none, none⟩ = .error insufficientMsg ∧
      run ⟨Units.METRIC, none, some "1", none⟩ = .error insufficientMsg ∧
      run ⟨Units.METRIC, none, none, some "1"⟩ = .error insufficientMsg) :=
  ⟨parse_one, c2_insufficient_inputs Units.METRIC "1" 1 parse_one⟩

/-- C4 counterexample: the parse error does not say which of mass, speed or
energy offended — the unparseable literal "abc" supplied as mass and the same
literal supplied as speed produce the very same error value, so the error
cannot identify the field. -/
theorem c4_counterexample :
    run ⟨Units.METRIC, some "abc", some "1", none⟩ = .error (parseErrorMsg "abc") ∧
    run ⟨Units.METRIC, some "1", some "abc", none⟩ = .error (parseErrorMsg "abc") ∧
    run ⟨Units.METRIC, some "abc", some "1", none⟩ =
      run ⟨Units.METRIC, some "1", some "abc", none⟩ := by
  refine ⟨?_, ?_, ?_⟩ <;>
    simp [run, get_float_bad parse_abc, get_float_parsed parse_one, get_float_none]

/-- C4 (amended): parsing succeeds only on inputs of Rust's float grammar
`Sign? ('inf' | 'infinity' | 'nan' | Number)` (case-insensitive); a provided
input that the grammar rejects makes `run` fail with the parse error
carrying the raw literal text (but not the field name), and absent inputs
pass through without error. -/
theorem c4_parse_error_carries_literal (u : Units) (st : String)
    (h : rustFloatAccepts st = false) :
    (∀ os oe, run ⟨u, some st, os, oe⟩ = .error (parseErrorMsg st)) ∧
    (∀ oe, run ⟨u, none, some st, oe⟩ = .error (parseErrorMsg st)) ∧
    (∀ sm q, parseFloat sm = some q →
      ∀ oe, run ⟨u, some sm, some st, oe⟩ = .error (parseErrorMsg st)) ∧
    run ⟨u, none, none, some st⟩ = .error (parseErrorMsg st) ∧
    (∀ st2 v, get_float (some st2) = .ok v → rustFloatAccepts st2 = true) ∧
    get_float none = .ok none := by
  have hp : parseFloat st = none := parseFloat_eq_none_of_rejected h
  refine ⟨?_, ?_, ?_, ?_, ?_, get_float_none⟩
  · intro os oe
    simp [run, get_float_bad hp]
  · intro oe
    simp [run, get_float_none, get_float_bad hp]
  · intro sm q hq oe
    simp [run, get_float_parsed hq, get_float_bad hp]
  · simp [run, get_float_none, get_float_bad hp]
  · intro st2 v hv
    cases hp2 : parseFloat st2 with
    | none => rw [get_float_bad hp2] at hv; exact absurd hv (by simp)
    | some q => exact accepts_of_parseFloat hp2

/-- Witness for C4 (amended) at the concrete grammar-rejected literal
"abc". -/
theorem c4_witness :
    rustFloatAccepts "abc" = false ∧
    run ⟨Units.METRIC, some "abc", some "1", none⟩ = .error (parseErrorMsg "abc") ∧
    run ⟨Units.METRIC, none, some "abc", none⟩ = .error (parseErrorMsg "abc") ∧
    run ⟨Units.METRIC, none, none, some "abc"⟩ = .error (parseErrorMsg "abc") :=
  ⟨rejects_abc,
    (c4_parse_error_carries_literal Units.METRIC "abc" rejects_abc).1 (some "1") none,
    (c4_parse_error_carries_literal Units.METRIC "abc" rejects_abc).2.1 none,
    (c4_parse_error_carries_literal Units.METRIC "abc" rejects_abc).2.2.2.1⟩

/-- C8 counterexample: imperial, mass "150" (grains) and speed "2700" (FPS):
`run` derives energy (150/7000 × 2700²)/(2×32.174) = 273375000/112609
≈ 2427.648 FPE, which is not within 0.0005 of the 2391.93 the claim states,
so the derived energy does not match 2391.93 to three decimal places. -/
theorem c8_counterexample :
    run ⟨Units.IMPERIAL, some "150", some "2700", none⟩ =
      .ok ⟨Units.IMPERIAL, 150, 2700, 273375000 / 112609, false⟩ ∧
    ¬ |(273375000 / 112609 : ℝ) - 2391.93| ≤ 0.0005 := by
  constructor
  · rw [run_mass_speed parse_150 parse_2700]
    norm_num [derive_energy_imperial, Params.mk.injEq]
  · rw [not_le, lt_abs]
    left
    norm_num

/-- C8 (amended): imperial, mass "150" (grains) and speed "2700" (FPS):
`run` returns `Ok` with derived energy exactly
(150/7000 × 2700²)/(2×32.174) = 273375000/112609 ≈ 2427.648 FPE,
matching 2427.648 to three decimal places. -/
theorem c8_imperial_example :
    run ⟨Units.IMPERIAL, some "150", some "2700", none⟩ =
      .ok ⟨Units.IMPERIAL, 150, 2700, 273375000 / 112609, false⟩ ∧
    |(273375000 / 112609 : ℝ) - 2427.648| ≤ 0.0005 := by
  constructor
  · rw [run_mass_speed parse_150 parse_2700]
    norm_num [derive_energy_imperial, Params.mk.injEq]
  · rw [abs_le]
    constructor <;> norm_num

/-- C5: in both unit systems, deriving energy from (mass, speed) and then
re-deriving speed from (mass, derived energy) returns the original speed —
exactly, in the idealised real-arithmetic model, hence in particular within
any floating-point tolerance — and symmetrically for the other two pairs. -/
theorem c5_round_trip_laws (u : Units) (m s e : ℝ)
    (hm : 0 < m) (hs : 0 < s) (he : 0 < e) :
    derive_speed m (derive_energy m s u) u = s ∧
    derive_energy (derive_mass s e u) s u = e ∧
    derive_mass (derive_speed m e u) e u = m := by
  have hm' : m ≠ 0 := hm.ne'
  have hs' : s ≠ 0 := hs.ne'
  have he' : e ≠ 0 := he.ne'
  cases u
  case METRIC =>
    refine ⟨?_, ?_, ?_⟩
    · rw [derive_energy_metric, derive_speed_metric]
      have harg : 2 * (m / 1000 * s ^ 2 / 2) / (m / 1000) = s ^ 2 := by
        field_simp
        ring
      rw [harg, Real.sqrt_sq hs.le]
    · rw [derive_mass_metric, derive_energy_metric]
      field_simp
      ring
    · rw [derive_speed_metric, derive_mass_metric]
      have harg : (0 : ℝ) ≤ 2 * e / (m / 1000) := by positivity
      rw [Real.sq_sqrt harg]
      field_simp
      ring
  case IMPERIAL =>
    refine ⟨?_, ?_, ?_⟩
    · rw [derive_energy_imperial, derive_speed_imperial]
      have harg : 2 * 32.174 * (m / 7000 * s ^ 2 / (2 * 32.174)) / (m / 7000)
          = s ^ 2 := by
        field_simp
        ring
      rw [harg, Real.sqrt_sq hs.le]
    · rw [derive_mass_imperial, derive_energy_imperial]
      field_simp
      ring
    · rw [derive_speed_imperial, derive_mass_imperial]
      have harg : (0 : ℝ) ≤ 2 * 32.174 * e / (m / 7000) := by positivity
      rw [Real.sq_sqrt harg]
      field_simp
      ring

/-- Witness for C5 at the concrete metric input m = 1000, s = 2, e = 5. -/
theorem c5_witness :
    (0 : ℝ) < 1000 ∧ (0 : ℝ) < 2 ∧ (0 : ℝ) < 5 ∧
    (derive_speed 1000 (derive_energy 1000 2 Units.METRIC) Units.METRIC = 2 ∧
      derive_energy (derive_mass 2 5 Units.METRIC) 2 Units.METRIC = 5 ∧
      derive_mass (derive_speed 1000 5 Units.METRIC) 5 Units.METRIC = 1000) :=
  ⟨by norm_num, by norm_num, by norm_num,
    c5_round_trip_laws Units.METRIC 1000 2 5 (by norm_num) (by norm_num)
      (by norm_num)⟩

/-- C6: for any triple of optional textual inputs, the metric run and the
imperial run select the same input-presence case: they succeed together or
fail with the same error, on success their `bogus` flags agree, and every
provided field is echoed identically by both — only the derived value may
differ through the unit constants. -/
theorem c6_units_do_not_change_selection (m s e : Option String) :
    ((∃ p, run ⟨Units.METRIC, m, s, e⟩ = .ok p) ↔
      (∃ p, run ⟨Units.IMPERIAL, m, s, e⟩ = .ok p)) ∧
    (∀ msg, run ⟨Units.METRIC, m, s, e⟩ = .error msg ↔
      run ⟨Units.IMPERIAL, m, s, e⟩ = .error msg) ∧
    (∀ pm pi, run ⟨Units.METRIC, m, s, e⟩ = .ok pm →
      run ⟨Units.IMPERIAL, m, s, e⟩ = .ok pi →
      pm.bogus = pi.bogus ∧
      (m.isSome → pm.mass = pi.mass) ∧
      (s.isSome → pm.speed = pi.speed) ∧
      (e.isSome → pm.energy = pi.energy)) := by
  rcases hgm : get_float m with x | (_ | a) <;>
    rcases hgs : get_float s with y | (_ | b) <;>
      rcases hge : get_float e with z | (_ | c) <;>
        (try rw [get_float_ok_none_iff] at hgm) <;>
        (try rw [get_float_ok_none_iff] at hgs) <;>
        (try rw [get_float_ok_none_iff] at hge) <;>
        (try subst hgm) <;> (try subst hgs) <;> (try subst hge) <;>
        simp_all [run, get_float_none]

/-- Witness for C6 at two concrete inputs: the empty input (both unit systems
fail with the insufficient-inputs error together) and the mass-and-speed
input "10", "800" (both runs report `bogus = false`). -/
theorem c6_witness :
    (run ⟨Units.METRIC, none, none, none⟩ = .error insufficientMsg ↔
      run ⟨Units.IMPERIAL, none, none, none⟩ = .error insufficientMsg) ∧
    (Params.mk Units.METRIC ((10 : ℚ) : ℝ) ((800 : ℚ) : ℝ)
        (derive_energy ((10 : ℚ) : ℝ) ((800 : ℚ) : ℝ) Units.METRIC) false).bogus =
      (Params.mk Units.IMPERIAL ((10 : ℚ) : ℝ) ((800 : ℚ) : ℝ)
        (derive_energy ((10 : ℚ) : ℝ) ((800 : ℚ) : ℝ) Units.IMPERIAL) false).bogus :=
  ⟨(c6_units_do_not_change_selection none none none).2.1 insufficientMsg,
    ((c6_units_do_not_change_selection (some "10") (some "800") none).2.2 _ _
      (run_mass_speed parse_ten parse_800)
      (run_mass_speed parse_ten parse_800)).1⟩

/-- C9: every successful `run` keeps the configured unit system in the
result, and every provided input appears in the result exactly as its parsed
value. -/
theorem c9_result_preserves_inputs (cfg : Config) (p : Params)
    (h : run cfg = .ok p) :
    p.units = cfg.units ∧
    (∀ st q, cfg.mass = some st → parseFloat st = some q → p.mass = (q : ℝ)) ∧
    (∀ st q, cfg.speed = some st → parseFloat st = some q → p.speed = (q : ℝ)) ∧
    (∀ st q, cfg.energy = some st → parseFloat st = some q → p.energy = (q : ℝ)) := by
  obtain ⟨u, m, s, e⟩ := cfg
  rcases hgm : get_float m with x | (_ | a) <;>
    rcases hgs : get_float s with y | (_ | b) <;>
      rcases hge : get_float e with z | (_ | c) <;>
        simp only [run] at h <;>
        rw [hgm, hgs, hge] at h <;>
        simp at h
  all_goals subst h
  all_goals dsimp only
  all_goals refine ⟨rfl, ?_, ?_, ?_⟩
  all_goals intro st q hst hq
  all_goals first
    | (rw [hst] at hgm
       first
         | exact get_float_some_inj hgm hq
         | (rw [get_float_parsed hq] at hgm; simp at hgm))
    | (rw [hst] at hgs
       first
         | exact get_float_some_inj hgs hq
         | (rw [get_float_parsed hq] at hgs; simp at hgs))
    | (rw [hst] at hge
       first
         | exact get_float_some_inj hge hq
         | (rw [get_float_parsed hq] at hge; simp at hge))

/-- Witness for C9 at the concrete metric input "10", "800": the units and
the provided mass come through unchanged. -/
theorem c9_witness :
    (Params.mk Units.METRIC ((10 : ℚ) : ℝ) ((800 : ℚ) : ℝ)
        (derive_energy ((10 : ℚ) : ℝ) ((800 : ℚ) : ℝ) Units.METRIC) false).units
      = Units.METRIC ∧
    (Params.mk Units.METRIC ((10 : ℚ) : ℝ) ((800 : ℚ) : ℝ)
        (derive_energy ((10 : ℚ) : ℝ) ((800 : ℚ) : ℝ) Units.METRIC) false).mass
      = ((10 : ℚ) : ℝ) :=
  ⟨(c9_result_preserves_inputs ⟨Units.METRIC, some "10", some "800", none⟩ _
      (run_mass_speed parse_ten parse_800)).1,
    (c9_result_preserves_inputs ⟨Units.METRIC, some "10", some "800", none⟩ _
      (run_mass_speed parse_ten parse_800)).2.1 "10" 10 rfl parse_ten⟩

end Muzzle
